import Mathlib

/-!
Verification of the LISA Azure image export and publication pipeline
(`lisa/sut_orchestrator/azure/transformers.py`) and of the DPDK installer
base class (`microsoft/testsuites/dpdk/common.py`), as a shallow embedding.

Remote collaborators (compute client, storage client, guest agent, power
control) are opaque per the spec; their outcomes are supplied by an oracle
record, and the calls the pipeline issues to them are recorded in an event
trace.  Exceptions are modelled with `Except`; an event is appended to the
trace when the corresponding call is issued, whether or not it then fails.
-/

namespace Lisa

/-- Failure kinds of the pipeline, tagged by the raising site in the source.
`nodeNotFound` is the `StopIteration` escaping `next()` during node
resolution; `blobExistsAlready` is the `LisaException` raised by
`_generate_vhd_path`; `unpackMismatch` is the `ValueError` from destructuring
`gallery_image_fullname.split()` into four names; `blobMissing p` is the
`LisaException` reporting that `p` does not exist; `typeError` is the
`TypeError` raised by comparing `None` with a `VersionInfo`. -/
inductive Err where
  | nodeNotFound
  | deprovisionFailed
  | stopFailed
  | grantFailed
  | emptySasUrl
  | storageAccountFailed
  | containerFailed
  | blobExistsAlready
  | copyFailed
  | revokeFailed
  | startFailed
  | indexError
  | unpackMismatch
  | blobMissing (path : String)
  | typeError
  deriving DecidableEq, Repr

/-- Calls issued by `VhdTransformer._internal_run` and its helpers, in the
order the source issues them. -/
inductive Event where
  | execHistsize
  | deprovision
  | stop
  | getVM
  | grantAccess
  | createStorageAccount
  | createContainer
  | startCopy
  | waitCopy
  | revokeAccess
  | startVM
  deriving DecidableEq, Repr

/-- A node of the loaded environment; only its name takes part in node
resolution. -/
structure Node where
  name : String
  deriving DecidableEq, Repr

/-- The fields of `VhdTransformerSchema` the export run reads. -/
structure VhdRunbook where
  resource_group_name : String
  vm_name : String
  storage_account_name : String
  container_name : String
  file_name_part : String
  custom_blob_name : String
  restore : Bool

/-- Outcomes of the opaque collaborators for one export run: the nodes the
environment resolver returns, success of each remote mutation, the SAS url
the grant operation returns, the container url, the blobs already present in
the container, and the date/datetime strings `get_date_str()` and
`get_datetime_path()` return on each attempt of the retried path
generation. -/
structure Oracle where
  nodes : List Node
  deprovisionOk : Bool
  stopOk : Bool
  grantOk : Bool
  sasUrl : String
  storageAccountOk : Bool
  containerOk : Bool
  containerUrl : String
  blobs : List String
  timeStamps : Nat → String × String
  copyOk : Bool
  revokeOk : Bool
  startOk : Bool

def DEFAULT_VHD_SUFFIX : String := "exported"

/-- The `@retry` decorator configuration on `_generate_vhd_path`:
`tries=10`, `jitter=(1, 2)`. -/
def retry_tries : Nat := 10

def retry_jitter : Nat × Nat := (1, 2)

/-- The candidate path built inside `_generate_vhd_path`:
`f"\x7bget_date_str()\x7d/\x7bget_datetime_path()\x7d_\x7bDEFAULT_VHD_SUFFIX\x7d_\x7bfile_name_part\x7d.vhd"`. -/
def vhd_path_candidate (dateStr dtPath file_name_part : String) : String :=
  dateStr ++ "/" ++ dtPath ++ "_" ++ DEFAULT_VHD_SUFFIX ++ "_" ++ file_name_part ++ ".vhd"

/-- `container_client.list_blobs(name_starts_with=path)` returns something:
some existing blob name starts with `path`. -/
def blob_conflict (blobs : List String) (path : String) : Bool :=
  blobs.any (fun b => path.isPrefixOf b)

/-- One attempt of `_generate_vhd_path`: build the candidate, list blobs with
the candidate as name prefix, raise `LisaException` if any is found. -/
def generate_once (blobs : List String) (dateStr dtPath file_name_part : String) :
    Except Err String :=
  if blob_conflict blobs (vhd_path_candidate dateStr dtPath file_name_part) then
    .error .blobExistsAlready
  else
    .ok (vhd_path_candidate dateStr dtPath file_name_part)

/-- The retry loop the `@retry` decorator wraps around `_generate_vhd_path`:
`attempt` numbers the current attempt (each attempt reads fresh date/datetime
strings), `fuel` is the number of retries still allowed; `fuel = 0` means the
final attempt, whose failure propagates. -/
def generate_attempts (times : Nat → String × String) (blobs : List String)
    (file_name_part : String) : Nat → Nat → Except Err String
  | attempt, 0 => generate_once blobs (times attempt).1 (times attempt).2 file_name_part
  | attempt, fuel + 1 =>
    match generate_once blobs (times attempt).1 (times attempt).2 file_name_part with
    | .ok p => .ok p
    | .error _ => generate_attempts times blobs file_name_part (attempt + 1) fuel

/-- `_generate_vhd_path` under its decorator: at most `retry_tries` attempts
in total. -/
def generate_vhd_path (times : Nat → String × String) (blobs : List String)
    (file_name_part : String) : Except Err String :=
  generate_attempts times blobs file_name_part 0 (retry_tries - 1)

/-- Node resolution in `VhdTransformer._internal_run`: if `runbook.vm_name`
is truthy, `next(x for x in environment.nodes.list() if x.name ==
runbook.vm_name)`, otherwise `next(x for x in environment.nodes.list())`;
`next` on an exhausted iterator raises. -/
def resolveNode (vm_name : String) (nodes : List Node) : Except Err Node :=
  if vm_name ≠ "" then
    match nodes.find? (fun n => n.name == vm_name) with
    | some n => .ok n
    | none => .error .nodeNotFound
  else
    match nodes with
    | [] => .error .nodeNotFound
    | n :: _ => .ok n

/-- `VhdTransformer._prepare_virtual_machine`: run `export HISTSIZE=0` on the
node, deprovision through the guest agent, then stop through the StartStop
feature.  (The public-address defaulting at the top of the source function
touches no remote resource and no claim, and is omitted.) -/
def prepare_virtual_machine (o : Oracle) : List Event × Except Err Unit :=
  if !o.deprovisionOk then
    ([Event.execHistsize, Event.deprovision], .error .deprovisionFailed)
  else if !o.stopOk then
    ([Event.execHistsize, Event.deprovision, Event.stop], .error .stopFailed)
  else
    ([Event.execHistsize, Event.deprovision, Event.stop], .ok ())

/-- `VhdTransformer._export_vhd`: grant read access on the OS disk, assert
the SAS url is non-empty, ensure the storage account and container, pick the
blob path (the custom name verbatim when truthy, else the retried generator),
start the copy from the SAS url and wait for it; returns
`f"\x7bcontainer_client.url\x7d/\x7bpath\x7d"`. -/
def export_vhd (rb : VhdRunbook) (o : Oracle) : List Event × Except Err String :=
  if !o.grantOk then
    ([Event.grantAccess], .error .grantFailed)
  else if o.sasUrl = "" then
    ([Event.grantAccess], .error .emptySasUrl)
  else if !o.storageAccountOk then
    ([Event.grantAccess, Event.createStorageAccount], .error .storageAccountFailed)
  else if !o.containerOk then
    ([Event.grantAccess, Event.createStorageAccount, Event.createContainer],
      .error .containerFailed)
  else
    match
      (if rb.custom_blob_name ≠ "" then Except.ok rb.custom_blob_name
       else generate_vhd_path o.timeStamps o.blobs rb.file_name_part) with
    | .error e =>
      ([Event.grantAccess, Event.createStorageAccount, Event.createContainer], .error e)
    | .ok path =>
      let vhd_path := o.containerUrl ++ "/" ++ path
      if !o.copyOk then
        ([Event.grantAccess, Event.createStorageAccount, Event.createContainer,
          Event.startCopy, Event.waitCopy], .error .copyFailed)
      else
        ([Event.grantAccess, Event.createStorageAccount, Event.createContainer,
          Event.startCopy, Event.waitCopy], .ok vhd_path)

/-- `VhdTransformer._restore_vm`: revoke the disk access grant, then start
the VM again only when `runbook.restore` is set. -/
def restore_vm (rb : VhdRunbook) (o : Oracle) : List Event × Except Err Unit :=
  if !o.revokeOk then
    ([Event.revokeAccess], .error .revokeFailed)
  else if rb.restore then
    if !o.startOk then
      ([Event.revokeAccess, Event.startVM], .error .startFailed)
    else
      ([Event.revokeAccess, Event.startVM], .ok ())
  else
    ([Event.revokeAccess], .ok ())

/-- `VhdTransformer._internal_run`: resolve the node, prepare it, fetch the
VM, export the VHD, restore; each step runs only if every earlier step
returned, and an exception propagates immediately — there is no
`try`/`finally` around the export. -/
def internal_run (rb : VhdRunbook) (o : Oracle) : List Event × Except Err String :=
  match resolveNode rb.vm_name o.nodes with
  | .error e => ([], .error e)
  | .ok _node =>
    match (prepare_virtual_machine o).2 with
    | .error e => ((prepare_virtual_machine o).1, .error e)
    | .ok _ =>
      match (export_vhd rb o).2 with
      | .error e =>
        ((prepare_virtual_machine o).1 ++ [Event.getVM] ++ (export_vhd rb o).1,
          .error e)
      | .ok vhd_location =>
        match (restore_vm rb o).2 with
        | .error e =>
          ((prepare_virtual_machine o).1 ++ [Event.getVM] ++ (export_vhd rb o).1 ++
            (restore_vm rb o).1, .error e)
        | .ok _ =>
          ((prepare_virtual_machine o).1 ++ [Event.getVM] ++ (export_vhd rb o).1 ++
            (restore_vm rb o).1, .ok vhd_location)

/-- Calls issued by `SharedGalleryImageTransformer._internal_run`, in source
order, carrying the arguments the claims are about. -/
inductive SigEvent where
  | loadEnvironment (rg : String)
  | getVM
  | stopVM
  | generalize (rg vmName : String)
  | getDeployableVhdPath (vhd : String)
  | getVhdDetails (path : String)
  | checkBlobExist (path : String)
  | createResourceGroup (rg loc : String)
  | createGallery (rg name : String)
  | createGalleryImage (name diskController : String)
  | createImageVersion (version source : String)
  deriving DecidableEq, Repr

/-- The fields of `SigTransformerSchema` the publication run reads. -/
structure SigRunbook where
  vhd : String
  vm_resource_group : String
  gallery_resource_group_name : String
  gallery_resource_group_location : String
  gallery_name : String
  gallery_location : String
  gallery_image_location : List String
  gallery_image_name : String
  gallery_image_fullname : String

/-- Outcomes of the opaque collaborators for one publication run: the nodes
of the loaded environment, the VM the compute client returns (its name and
the managed-disk id `vm.properties["osDisk"].managed_disk.id`), the path
`get_deployable_vhd_path` resolves the raw vhd url to, and the answer of
`check_blob_exist` per path. -/
structure SigOracle where
  nodes : List Node
  vm_name : String
  vm_disk_id : String
  deployable_vhd_path : String
  blob_exists : String → Bool

/-- Worker for `pySplit`: walk the characters, accumulating the current
token in reverse; whitespace closes the current token, if any. -/
def pySplitAux : List Char → List Char → List String
  | [], [] => []
  | [], acc => [String.mk acc.reverse]
  | c :: cs, acc =>
    if c.isWhitespace then
      match acc with
      | [] => pySplitAux cs []
      | _ :: _ => String.mk acc.reverse :: pySplitAux cs []
    else
      pySplitAux cs (c :: acc)

/-- Python `str.split()` with no separator: split on whitespace runs,
dropping empty tokens. -/
def pySplit (s : String) : List String :=
  pySplitAux s.data []

/-- The destructuring
`(publisher, offer, sku, version) = tuple(runbook.gallery_image_fullname.split())`:
a `ValueError` unless the split yields exactly four tokens. -/
def parseFullname (s : String) : Except Err (String × String × String × String) :=
  match pySplit s with
  | [a, b, c, d] => .ok (a, b, c, d)
  | _ => .error .unpackMismatch

/-- The `if runbook.vm_resource_group:` branch pair of
`SharedGalleryImageTransformer._internal_run` that resolves the image
source.  VM branch: load the environment of `vm_resource_group`, take node
`[0]` of its node list (an `IndexError` when empty), fetch the VM, stop it,
generalize it, and use `vm.properties["osDisk"].managed_disk.id` as the
source path.  Blob branch: resolve `runbook.vhd` through
`get_deployable_vhd_path`. -/
def sig_resolve_source (rb : SigRunbook) (o : SigOracle) :
    List SigEvent × Except Err String :=
  if rb.vm_resource_group ≠ "" then
    match o.nodes with
    | [] => ([SigEvent.loadEnvironment rb.vm_resource_group], .error .indexError)
    | _ :: _ =>
      ([SigEvent.loadEnvironment rb.vm_resource_group, SigEvent.getVM,
        SigEvent.stopVM, SigEvent.generalize rb.vm_resource_group o.vm_name],
        .ok o.vm_disk_id)
  else
    ([SigEvent.getDeployableVhdPath rb.vhd], .ok o.deployable_vhd_path)

/-- `SharedGalleryImageTransformer._internal_run`: read the first gallery
image location (an `IndexError` when the list is empty), parse the
four-token full name, default the gallery locations, resolve the image
source (`sig_resolve_source`), validate the source blob exists via
`get_vhd_details` / `check_blob_exist` — raising when it does not — ensure
resource group, gallery and gallery image — the latter with disk controller
`"SCSI,NVMe"` when `vm_resource_group` is truthy and `"SCSI"` otherwise —
create the image version from the source, and return
`gallery_name/gallery_image_name/version`. -/
def sig_internal_run (rb : SigRunbook) (o : SigOracle) :
    List SigEvent × Except Err String :=
  match rb.gallery_image_location with
  | [] => ([], .error .indexError)
  | image_location :: _ =>
    match parseFullname rb.gallery_image_fullname with
    | .error e => ([], .error e)
    | .ok (_publisher, _offer, _sku, version) =>
      match sig_resolve_source rb o with
      | (t, .error e) => (t, .error e)
      | (t, .ok vhd_path) =>
        if !(o.blob_exists vhd_path) then
          (t ++ [SigEvent.getVhdDetails vhd_path, SigEvent.checkBlobExist vhd_path],
            .error (.blobMissing vhd_path))
        else
          (t ++ [SigEvent.getVhdDetails vhd_path, SigEvent.checkBlobExist vhd_path,
              SigEvent.createResourceGroup rb.gallery_resource_group_name
                (if rb.gallery_location = "" then image_location
                 else rb.gallery_location),
              SigEvent.createGallery rb.gallery_resource_group_name rb.gallery_name,
              SigEvent.createGalleryImage rb.gallery_image_name
                (if rb.vm_resource_group ≠ "" then "SCSI,NVMe" else "SCSI"),
              SigEvent.createImageVersion version vhd_path],
            .ok (rb.gallery_name ++ "/" ++ rb.gallery_image_name ++ "/" ++ version))

/-- A semantic version as compared by `semver.VersionInfo`. -/
structure VersionInfo where
  major : Nat
  minor : Nat
  patch : Nat
  deriving DecidableEq, Repr

/-- Lexicographic strict order on versions; `VersionInfo.lt a b` means `a`
is older than `b`. -/
def VersionInfo.lt (a b : VersionInfo) : Bool :=
  (a.major < b.major) ||
    (a.major == b.major &&
      ((a.minor < b.minor) || (a.minor == b.minor && a.patch < b.patch)))

/-- What the node reports to an installer: whether `_check_if_installed`
returns true, and the version `get_installed_version` returns. -/
structure InstallerState where
  installed : Bool
  installedVersion : VersionInfo
  deriving DecidableEq, Repr

/-- `Installer._should_install` as written in the source:
`(not self._check_if_installed()) or (required_version is None and
required_version > self.get_installed_version())`.  Python `or` and `and`
short-circuit: when the package is not installed the result is `True`; when
it is installed and `required_version` is not `None`, `required_version is
None` is `False`, the conjunction short-circuits and the result is `False`;
when it is installed and `required_version` is `None`, the comparison
`None > VersionInfo` is evaluated and raises `TypeError`. -/
def should_install (st : InstallerState) (required_version : Option VersionInfo) :
    Except Err Bool :=
  if !st.installed then .ok true
  else
    match required_version with
    | none => .error .typeError
    | some _ => .ok false

/-- Written from the words of the spec, for comparison with
`should_install`: the intended contract — reinstall when the package is not
installed, or when a required version is given and is newer than the
installed one; never raise. -/
def should_install_intended (st : InstallerState)
    (required_version : Option VersionInfo) : Bool :=
  !st.installed ||
    (match required_version with
     | some v => VersionInfo.lt st.installedVersion v
     | none => false)

/-- Calls issued by `Installer.do_installation`; the argument of the
`_should_install` call is recorded. -/
inductive InstEvent where
  | setupNode
  | shouldInstallCall (arg : Option VersionInfo)
  | uninstall
  | installDependencies
  | installStep
  deriving DecidableEq, Repr

/-- `Installer.do_installation`: `self._setup_node()`, then
`if self._should_install():` — called with no argument, so its
`required_version` parameter defaults to `None` whatever `do_installation`
itself received — and on `True` uninstall, install dependencies, install. -/
def do_installation (st : InstallerState) (required_version : Option VersionInfo) :
    List InstEvent × Except Err Unit :=
  match should_install st none with
  | .error e => ([InstEvent.setupNode, InstEvent.shouldInstallCall none], .error e)
  | .ok true =>
    ([InstEvent.setupNode, InstEvent.shouldInstallCall none, InstEvent.uninstall,
      InstEvent.installDependencies, InstEvent.installStep], .ok ())
  | .ok false =>
    ([InstEvent.setupNode, InstEvent.shouldInstallCall none], .ok ())

/-- Identity and parameters of a storage account as the provisioner sees
them. -/
structure StorageAccount where
  name : String
  resource_group : String
  location : String
  deriving DecidableEq, Repr

/-- The backing storage service: accounts keyed by name, observed through
read and create calls. -/
structure StorageState where
  accounts : List (String × StorageAccount)
  deriving DecidableEq, Repr

/-- Modelled from the spec: the body of `check_or_create_storage_account`
lives in `lisa/sut_orchestrator/azure/common.py`, which is not among the
provided sources; only its call site in `VhdTransformer._export_vhd` is.
Per the spec (§4.2), each `ensure` operation reads the resource by identity,
returns it unchanged when present, and creates it with the caller-supplied
parameters when absent.  Returns the new service state, the resource the
caller observes, and the number of create calls issued to the backing
service. -/
def ensure_storage_account (st : StorageState) (account : StorageAccount) :
    StorageState × StorageAccount × Nat :=
  match st.accounts.lookup account.name with
  | some existing => (st, existing, 0)
  | none => (⟨(account.name, account) :: st.accounts⟩, account, 1)

/-! Helper lemmas about the export pipeline stages. -/

theorem resolve_err_kind (vm_name : String) (nodes : List Node) (e : Err)
    (h : resolveNode vm_name nodes = .error e) : e = .nodeNotFound := by
  unfold resolveNode at h
  split at h
  · split at h <;> simp_all
  · split at h <;> simp_all

theorem prepare_trace_cases (o : Oracle) :
    (prepare_virtual_machine o).1 = [Event.execHistsize, Event.deprovision] ∨
    (prepare_virtual_machine o).1 =
      [Event.execHistsize, Event.deprovision, Event.stop] := by
  cases hd : o.deprovisionOk <;> cases hs : o.stopOk <;>
    simp [prepare_virtual_machine, hd, hs]

theorem prepare_no_revoke (o : Oracle) :
    Event.revokeAccess ∉ (prepare_virtual_machine o).1 := by
  rcases prepare_trace_cases o with h | h <;> rw [h] <;> decide

theorem prepare_err_kind (o : Oracle) (e : Err)
    (h : (prepare_virtual_machine o).2 = .error e) :
    e = .deprovisionFailed ∨ e = .stopFailed := by
  cases hd : o.deprovisionOk <;> cases hs : o.stopOk <;>
    simp_all [prepare_virtual_machine, hd, hs]

theorem prepare_ok_trace (o : Oracle)
    (h : (prepare_virtual_machine o).2 = .ok ()) :
    (prepare_virtual_machine o).1 =
      [Event.execHistsize, Event.deprovision, Event.stop] := by
  cases hd : o.deprovisionOk <;> cases hs : o.stopOk <;>
    simp_all [prepare_virtual_machine, hd, hs]

theorem generate_attempts_err (times : Nat → String × String) (blobs : List String)
    (file_name_part : String) (attempt fuel : Nat) (e : Err)
    (h : generate_attempts times blobs file_name_part attempt fuel = .error e) :
    e = .blobExistsAlready := by
  induction fuel generalizing attempt with
  | zero =>
    simp only [generate_attempts, generate_once] at h
    split at h <;> simp_all
  | succ f ih =>
    simp only [generate_attempts] at h
    split at h
    · simp_all
    · exact ih _ h

theorem generate_once_ok (blobs : List String) (dateStr dtPath file_name_part p : String)
    (h : generate_once blobs dateStr dtPath file_name_part = .ok p) :
    p = vhd_path_candidate dateStr dtPath file_name_part ∧
    blob_conflict blobs p = false := by
  unfold generate_once at h
  split at h
  · simp at h
  · next hc =>
    have hp : vhd_path_candidate dateStr dtPath file_name_part = p := by
      simpa using h
    subst hp
    exact ⟨rfl, by simpa using hc⟩

theorem generate_attempts_ok (times : Nat → String × String) (blobs : List String)
    (file_name_part : String) (attempt fuel : Nat) (p : String)
    (h : generate_attempts times blobs file_name_part attempt fuel = .ok p) :
    ∃ i, attempt ≤ i ∧ i ≤ attempt + fuel ∧
      p = vhd_path_candidate (times i).1 (times i).2 file_name_part ∧
      blob_conflict blobs p = false := by
  induction fuel generalizing attempt with
  | zero =>
    simp only [generate_attempts] at h
    obtain ⟨hp, hc⟩ := generate_once_ok _ _ _ _ _ h
    exact ⟨attempt, le_rfl, by omega, hp, hc⟩
  | succ f ih =>
    simp only [generate_attempts] at h
    split at h
    · next p0 heq =>
      obtain ⟨hp, hc⟩ := generate_once_ok _ _ _ _ _ heq
      replace h : p0 = p := by simpa using h
      subst h
      exact ⟨attempt, le_rfl, by omega, hp, hc⟩
    · obtain ⟨i, h1, h2, h3, h4⟩ := ih _ h
      exact ⟨i, by omega, by omega, h3, h4⟩

theorem export_no_revoke (rb : VhdRunbook) (o : Oracle) :
    Event.revokeAccess ∉ (export_vhd rb o).1 := by
  unfold export_vhd
  repeat' split
  all_goals simp

theorem export_grant_mem (rb : VhdRunbook) (o : Oracle) :
    Event.grantAccess ∈ (export_vhd rb o).1 := by
  unfold export_vhd
  repeat' split
  all_goals simp

theorem export_err_kind (rb : VhdRunbook) (o : Oracle) (e : Err)
    (h : (export_vhd rb o).2 = .error e) :
    e = .grantFailed ∨ e = .emptySasUrl ∨ e = .storageAccountFailed ∨
    e = .containerFailed ∨ e = .blobExistsAlready ∨ e = .copyFailed := by
  unfold export_vhd at h
  split at h
  · simp at h; tauto
  · split at h
    · simp at h; tauto
    · split at h
      · simp at h; tauto
      · split at h
        · simp at h; tauto
        · split at h
          · next e0 heq =>
            simp at h
            split at heq
            · simp at heq
            · have := generate_attempts_err _ _ _ _ _ _ heq
              subst h; tauto
          · split at h
            · simp at h; tauto
            · simp at h

theorem restore_revoke_count (rb : VhdRunbook) (o : Oracle) :
    (restore_vm rb o).1.count Event.revokeAccess = 1 := by
  unfold restore_vm
  repeat' split
  all_goals decide

theorem restore_err_kind (rb : VhdRunbook) (o : Oracle) (e : Err)
    (h : (restore_vm rb o).2 = .error e) :
    e = .revokeFailed ∨ e = .startFailed := by
  unfold restore_vm at h
  split at h
  · simp at h; tauto
  · split at h
    · split at h
      · simp at h; tauto
      · simp at h
    · simp at h

/-! Concrete inputs used by counterexamples and witnesses. -/

def nodeA : Node := ⟨"vm1"⟩

/-- A runbook exporting with an explicit custom blob name. -/
def rbOk : VhdRunbook :=
  { resource_group_name := "rg1", vm_name := "vm1", storage_account_name := "sa1",
    container_name := "lisa-vhd-exported", file_name_part := "",
    custom_blob_name := "image.vhd", restore := false }

/-- A runbook with no custom blob name and a `centos79` file name part. -/
def rbGen : VhdRunbook :=
  { resource_group_name := "rg1", vm_name := "", storage_account_name := "sa1",
    container_name := "lisa-vhd-exported", file_name_part := "centos79",
    custom_blob_name := "", restore := false }

/-- All collaborators succeed. -/
def oOk : Oracle :=
  { nodes := [nodeA], deprovisionOk := true, stopOk := true, grantOk := true,
    sasUrl := "sas", storageAccountOk := true, containerOk := true,
    containerUrl := "https://sa1.blob/lisa-vhd-exported", blobs := [],
    timeStamps := fun _ => ("20240101", "20240101-000000-000"),
    copyOk := true, revokeOk := true, startOk := true }

/-- All collaborators succeed except the blob copy, which fails. -/
def oCopyFail : Oracle :=
  { nodes := [nodeA], deprovisionOk := true, stopOk := true, grantOk := true,
    sasUrl := "sas", storageAccountOk := true, containerOk := true,
    containerUrl := "https://sa1.blob/lisa-vhd-exported", blobs := [],
    timeStamps := fun _ => ("20240101", "20240101-000000-000"),
    copyOk := false, revokeOk := true, startOk := true }

/-- The failures `_export_vhd` can raise: all of them strike after the
access grant has been issued. -/
def export_failure (e : Err) : Prop :=
  e = .grantFailed ∨ e = .emptySasUrl ∨ e = .storageAccountFailed ∨
  e = .containerFailed ∨ e = .blobExistsAlready ∨ e = .copyFailed

/-- C1: the claim is false on the code.  In a run where the access grant and
the storage staging succeed but the blob copy fails, `_internal_run`
propagates the copy error without ever calling `begin_revoke_access`: the
trace contains the grant but zero revokes.  There is no `try`/`finally`
around the export in the source. -/
theorem c1_counterexample :
    Event.grantAccess ∈ (internal_run rbOk oCopyFail).1 ∧
    (internal_run rbOk oCopyFail).1.count Event.revokeAccess = 0 ∧
    (internal_run rbOk oCopyFail).2 = .error Err.copyFailed := by
  have h : internal_run rbOk oCopyFail =
      ([Event.execHistsize, Event.deprovision, Event.stop, Event.getVM,
        Event.grantAccess, Event.createStorageAccount, Event.createContainer,
        Event.startCopy, Event.waitCopy], .error Err.copyFailed) := by rfl
  rw [h]
  exact ⟨by decide, by decide, rfl⟩

/-- C1 amended: `revokeDiskAccess` is called exactly once on every run in
which all steps after the grant succeed (and also when the revoke or the
optional restart themselves fail — the revoke had been issued); but when the
SAS-url assertion, storage staging, path allocation or blob copy fails after
the grant, the error propagates with no revoke call at all. -/
theorem c1_amended (rb : VhdRunbook) (o : Oracle) :
    (∀ url, (internal_run rb o).2 = .ok url →
      (internal_run rb o).1.count Event.revokeAccess = 1) ∧
    (∀ e, export_failure e → (internal_run rb o).2 = .error e →
      Event.grantAccess ∈ (internal_run rb o).1 ∧
      (internal_run rb o).1.count Event.revokeAccess = 0) := by
  have hcnt1 : (prepare_virtual_machine o).1.count Event.revokeAccess = 0 :=
    List.count_eq_zero.mpr (prepare_no_revoke o)
  have hcnt2 : (export_vhd rb o).1.count Event.revokeAccess = 0 :=
    List.count_eq_zero.mpr (export_no_revoke rb o)
  unfold internal_run
  cases hres : resolveNode rb.vm_name o.nodes with
  | error e0 =>
    refine ⟨by intro url h; simp at h, ?_⟩
    intro e he h
    simp at h
    have := resolve_err_kind _ _ _ hres
    subst this; subst h
    rcases he with h | h | h | h | h | h <;> exact absurd h (by decide)
  | ok nd =>
    cases hprep : (prepare_virtual_machine o).2 with
    | error e0 =>
      refine ⟨by intro url h; simp at h, ?_⟩
      intro e he h
      simp at h
      have hk := prepare_err_kind o e0 hprep
      subst h
      rcases hk with h | h <;> subst h <;>
        rcases he with h | h | h | h | h | h <;> exact absurd h (by decide)
    | ok u =>
      cases u
      cases hexp : (export_vhd rb o).2 with
      | error e0 =>
        refine ⟨by intro url h; simp at h, ?_⟩
        intro e he h
        simp at h
        subst h
        constructor
        · simp [export_grant_mem rb o]
        · simp [List.count_append, hcnt1, hcnt2]
      | ok url0 =>
        cases hrest : (restore_vm rb o).2 with
        | error e0 =>
          refine ⟨by intro url h; simp at h, ?_⟩
          intro e he h
          simp at h
          subst h
          have hk := restore_err_kind rb o e0 hrest
          rcases hk with h | h <;> subst h <;>
            rcases he with h | h | h | h | h | h <;> exact absurd h (by decide)
        | ok u =>
          cases u
          refine ⟨?_, by intro e he h; simp at h⟩
          intro url h
          simp [List.count_append, hcnt1, hcnt2, restore_revoke_count rb o]

/-- C1 amended, witnessed at concrete inputs: a fully successful custom-name
export run revokes exactly once, and the copy-failure run of the
counterexample reaches the grant yet revokes zero times. -/
theorem c1_amended_witness :
    (internal_run rbOk oOk).1.count Event.revokeAccess = 1 ∧
    Event.grantAccess ∈ (internal_run rbOk oCopyFail).1 ∧
    (internal_run rbOk oCopyFail).1.count Event.revokeAccess = 0 :=
  ⟨(c1_amended rbOk oOk).1 "https://sa1.blob/lisa-vhd-exported/image.vhd" (by rfl),
   ((c1_amended rbOk oCopyFail).2 Err.copyFailed (by simp [export_failure]) (by rfl)).1,
   ((c1_amended rbOk oCopyFail).2 Err.copyFailed (by simp [export_failure]) (by rfl)).2⟩

/-- C7: node resolution picks the (first) node whose name equals
`vm_name` when one is given, else the first node of the environment; it
fails with the node-not-found error (the `StopIteration` escaping `next()`)
exactly when no node matches — for a named lookup, when no node carries the
name; for the default lookup, when the environment has no node — and
`_internal_run` propagates that failure as the outcome of the run. -/
theorem c7_resolve (vm_name : String) (nodes : List Node) :
    (∀ n, resolveNode vm_name nodes = .ok n →
      n ∈ nodes ∧ (vm_name ≠ "" → n.name = vm_name)) ∧
    (∀ n rest, vm_name = "" → nodes = n :: rest →
      resolveNode vm_name nodes = .ok n) ∧
    (resolveNode vm_name nodes = .error .nodeNotFound ↔
      (if vm_name = "" then nodes = [] else ∀ n ∈ nodes, n.name ≠ vm_name)) ∧
    (∀ (rb : VhdRunbook) (o : Oracle), rb.vm_name = vm_name → o.nodes = nodes →
      resolveNode vm_name nodes = .error .nodeNotFound →
      internal_run rb o = ([], .error .nodeNotFound)) := by
  refine ⟨?_, ?_, ?_, ?_⟩
  · intro n h
    unfold resolveNode at h
    split at h
    · next hv =>
      cases hf : nodes.find? (fun x => x.name == vm_name) with
      | none => rw [hf] at h; simp at h
      | some m =>
        rw [hf] at h
        simp at h
        subst h
        refine ⟨List.mem_of_find?_eq_some hf, fun _ => ?_⟩
        have := List.find?_some hf
        simpa using this
    · next hv =>
      simp at hv
      cases nodes with
      | nil => simp at h
      | cons m rest =>
        simp at h
        subst h
        exact ⟨List.mem_cons_self _ _, fun hne => absurd hv hne⟩
  · intro n rest hv hn
    subst hv; subst hn
    unfold resolveNode
    simp
  · unfold resolveNode
    split
    · next hv =>
      cases hf : nodes.find? (fun x => x.name == vm_name) with
      | none =>
        simp only [hf]
        constructor
        · intro _ n hn
          have := List.find?_eq_none.mp hf n hn
          simpa using this
        · intro _; trivial
      | some m =>
        simp only [hf]
        constructor
        · intro h; simp at h
        · intro hall
          have hm := List.mem_of_find?_eq_some hf
          have := List.find?_some hf
          exact absurd (by simpa using this) (hall m hm)
    · next hv =>
      have hv2 : vm_name = "" := by simpa using hv
      subst hv2
      cases nodes with
      | nil => simp
      | cons m rest => simp
  · intro rb o h1 h2 h
    subst h1; subst h2
    unfold internal_run
    rw [h]

/-- C7 witnessed: with one node named `vm1`, the named lookup returns it and
the conclusions of the theorem hold; the empty name returns the first node;
the name `vm2` fails with the node-not-found error and the run propagates
it. -/
theorem c7_resolve_witness :
    (nodeA ∈ [nodeA] ∧ ("vm1" ≠ "" → nodeA.name = "vm1")) ∧
    resolveNode "" [nodeA] = .ok nodeA ∧
    resolveNode "vm2" [nodeA] = .error .nodeNotFound ∧
    internal_run { rbOk with vm_name := "vm2" } oOk = ([], .error .nodeNotFound) :=
  ⟨(c7_resolve "vm1" [nodeA]).1 nodeA (by rfl),
   (c7_resolve "" [nodeA]).2.1 nodeA [] rfl rfl,
   (c7_resolve "vm2" [nodeA]).2.2.1.mpr (by decide),
   (c7_resolve "vm2" [nodeA]).2.2.2 { rbOk with vm_name := "vm2" } oOk rfl rfl
     ((c7_resolve "vm2" [nodeA]).2.2.1.mpr (by decide))⟩

/-- C8: any export run whose trace contains the disk access grant started
with guest deprovision followed by host stop, in that order, before the
grant: the trace is `execHistsize, deprovision, stop` followed by a tail
that contains the grant. -/
theorem c8_ordering (rb : VhdRunbook) (o : Oracle)
    (h : Event.grantAccess ∈ (internal_run rb o).1) :
    ∃ rest, (internal_run rb o).1 =
      Event.execHistsize :: Event.deprovision :: Event.stop :: rest ∧
      Event.grantAccess ∈ rest := by
  unfold internal_run at h ⊢
  cases hres : resolveNode rb.vm_name o.nodes with
  | error e0 => rw [hres] at h; simp at h
  | ok nd =>
    rw [hres] at h
    cases hprep : (prepare_virtual_machine o).2 with
    | error e0 =>
      rw [hprep] at h
      simp at h
      rcases prepare_trace_cases o with ht | ht <;> rw [ht] at h <;> simp at h
    | ok u =>
      cases u
      have ht1 := prepare_ok_trace o hprep
      cases hexp : (export_vhd rb o).2 with
      | error e0 =>
        exact ⟨Event.getVM :: (export_vhd rb o).1, by simp [ht1],
          by simp [export_grant_mem rb o]⟩
      | ok url0 =>
        cases hrest : (restore_vm rb o).2 with
        | error e0 =>
          exact ⟨Event.getVM :: ((export_vhd rb o).1 ++ (restore_vm rb o).1),
            by simp [ht1], by simp [export_grant_mem rb o]⟩
        | ok u =>
          cases u
          exact ⟨Event.getVM :: ((export_vhd rb o).1 ++ (restore_vm rb o).1),
            by simp [ht1], by simp [export_grant_mem rb o]⟩

/-- C8 witnessed: the fully successful run has the required shape. -/
theorem c8_ordering_witness :
    ∃ rest, (internal_run rbOk oOk).1 =
      Event.execHistsize :: Event.deprovision :: Event.stop :: rest ∧
      Event.grantAccess ∈ rest :=
  c8_ordering rbOk oOk (by decide)

/-- C4: the destination URL of an export.  When `custom_blob_name` is
non-empty the allocator is bypassed and the URL is the container URL
followed by the custom name verbatim — independent of the container
contents and clocks; otherwise any URL the run returns is the container URL
followed by a generated `date/datetime_exported_fileNamePart.vhd` path read
on one of at most `retry_tries = 10` attempts, a path no existing blob name
starts with. -/
theorem c4_url (rb : VhdRunbook) (o : Oracle) :
    retry_tries = 10 ∧ retry_jitter = (1, 2) ∧
    (rb.custom_blob_name ≠ "" →
      (∀ url, (export_vhd rb o).2 = .ok url →
        url = o.containerUrl ++ "/" ++ rb.custom_blob_name) ∧
      ∀ blobs2 times2,
        export_vhd rb { o with blobs := blobs2, timeStamps := times2 } =
          export_vhd rb o) ∧
    (rb.custom_blob_name = "" →
      ∀ url, (export_vhd rb o).2 = .ok url →
        ∃ i, i < retry_tries ∧
          url = o.containerUrl ++ "/" ++
            vhd_path_candidate (o.timeStamps i).1 (o.timeStamps i).2
              rb.file_name_part ∧
          blob_conflict o.blobs
            (vhd_path_candidate (o.timeStamps i).1 (o.timeStamps i).2
              rb.file_name_part) = false) := by
  refine ⟨rfl, rfl, ?_, ?_⟩
  · intro hc
    constructor
    · intro url h
      unfold export_vhd at h
      repeat' split at h
      all_goals simp_all
    · intro blobs2 times2
      unfold export_vhd
      simp only [if_pos hc]
  · intro hc url h
    unfold export_vhd at h
    repeat' split at h
    all_goals try simp_all
    next =>
      rename_i x path hg hsas hsa hcont heq hcopy
      unfold generate_vhd_path at heq
      obtain ⟨i, -, h2, h3, h4⟩ :=
        generate_attempts_ok o.timeStamps o.blobs rb.file_name_part 0
          (retry_tries - 1) path heq
      subst h3
      refine ⟨i, ?_, h.symm, h4⟩
      simp [retry_tries] at h2 ⊢
      omega

/-- C4 witnessed: a custom-name export yields the container URL plus the
name verbatim; an empty-custom-name export with file name part `centos79`
yields a date/timestamp `_exported_centos79.vhd` path with no conflicting
blob. -/
theorem c4_url_witness :
    "https://sa1.blob/lisa-vhd-exported/image.vhd" =
      "https://sa1.blob/lisa-vhd-exported" ++ "/" ++ "image.vhd" ∧
    ∃ i, i < retry_tries ∧
      "https://sa1.blob/lisa-vhd-exported/20240101/20240101-000000-000_exported_centos79.vhd" =
        "https://sa1.blob/lisa-vhd-exported" ++ "/" ++
          vhd_path_candidate (oOk.timeStamps i).1 (oOk.timeStamps i).2
            rbGen.file_name_part ∧
      blob_conflict oOk.blobs
        (vhd_path_candidate (oOk.timeStamps i).1 (oOk.timeStamps i).2
          rbGen.file_name_part) = false :=
  ⟨((c4_url rbOk oOk).2.2.1 (by decide)).1
      "https://sa1.blob/lisa-vhd-exported/image.vhd" (by rfl),
   (c4_url rbGen oOk).2.2.2 rfl
      "https://sa1.blob/lisa-vhd-exported/20240101/20240101-000000-000_exported_centos79.vhd"
      (by rfl)⟩

/-! Helper lemmas about full-name parsing and the publication run. -/

theorem parseFullname_err (s : String) (h : (pySplit s).length ≠ 4) :
    parseFullname s = .error .unpackMismatch := by
  unfold parseFullname
  split
  · next a b c d heq => exact absurd (by rw [heq]; rfl) h
  · rfl

theorem parseFullname_ok_len (s : String) (h : (pySplit s).length = 4) :
    ∃ a b c d, pySplit s = [a, b, c, d] ∧ parseFullname s = .ok (a, b, c, d) := by
  match hp : pySplit s with
  | [] => rw [hp] at h; simp at h
  | [a] => rw [hp] at h; simp at h
  | [a, b] => rw [hp] at h; simp at h
  | [a, b, c] => rw [hp] at h; simp at h
  | [a, b, c, d] =>
    refine ⟨a, b, c, d, rfl, ?_⟩
    unfold parseFullname
    rw [hp]
  | a :: b :: c :: d :: e :: tl => rw [hp] at h; simp at h

theorem sig_resolve_source_vm (rb : SigRunbook) (o : SigOracle)
    (hvm : rb.vm_resource_group ≠ "") (hnodes : o.nodes ≠ []) :
    sig_resolve_source rb o =
      ([SigEvent.loadEnvironment rb.vm_resource_group, SigEvent.getVM,
        SigEvent.stopVM, SigEvent.generalize rb.vm_resource_group o.vm_name],
        .ok o.vm_disk_id) := by
  unfold sig_resolve_source
  rw [if_pos hvm]
  cases h2 : o.nodes with
  | nil => exact absurd h2 hnodes
  | cons m rest => rfl

theorem sig_resolve_source_blob (rb : SigRunbook) (o : SigOracle)
    (hvm : rb.vm_resource_group = "") :
    sig_resolve_source rb o =
      ([SigEvent.getDeployableVhdPath rb.vhd], .ok o.deployable_vhd_path) := by
  unfold sig_resolve_source
  rw [if_neg (by simp [hvm])]

/-- C5: `"Microsoft Linux arm64 0.0.1"` parses to publisher `Microsoft`,
offer `Linux`, sku `arm64`, version `0.0.1`; and whenever the full-name
field does not split into exactly four whitespace-separated tokens, the
publication run fails with the parse error before any collaborator call is
issued — the trace is empty. -/
theorem c5_parse :
    parseFullname "Microsoft Linux arm64 0.0.1" =
      .ok ("Microsoft", "Linux", "arm64", "0.0.1") ∧
    ∀ (rb : SigRunbook) (o : SigOracle),
      rb.gallery_image_location ≠ [] →
      (pySplit rb.gallery_image_fullname).length ≠ 4 →
      sig_internal_run rb o = ([], .error .unpackMismatch) := by
  refine ⟨by rfl, ?_⟩
  intro rb o hloc hlen
  unfold sig_internal_run
  cases hgl : rb.gallery_image_location with
  | nil => exact absurd hgl hloc
  | cons loc rest =>
    rw [parseFullname_err _ hlen]

/-- A publication runbook whose full name has only three tokens. -/
def rbBadName : SigRunbook :=
  { vhd := "https://sa1.blob/c/b.vhd", vm_resource_group := "",
    gallery_resource_group_name := "rg-gal", gallery_resource_group_location := "",
    gallery_name := "gal", gallery_location := "",
    gallery_image_location := ["westus2"], gallery_image_name := "img",
    gallery_image_fullname := "too few tokens" }

/-- A VM-sourced publication runbook with a well-formed full name. -/
def rbSigVm : SigRunbook :=
  { vhd := "", vm_resource_group := "rg-vm",
    gallery_resource_group_name := "rg-gal", gallery_resource_group_location := "",
    gallery_name := "gal", gallery_location := "",
    gallery_image_location := ["westus2"], gallery_image_name := "img",
    gallery_image_fullname := "Microsoft Linux arm64 0.0.1" }

/-- The blob-sourced variant of `rbSigVm`. -/
def rbSigBlob : SigRunbook :=
  { rbSigVm with vm_resource_group := "", vhd := "https://sa1.blob/c/b.vhd" }

/-- A publication oracle whose blob-existence check always succeeds. -/
def oSig : SigOracle :=
  { nodes := [nodeA], vm_name := "vm1",
    vm_disk_id := "/subscriptions/s/disks/d1",
    deployable_vhd_path := "https://sa1.blob/c/b.vhd",
    blob_exists := fun _ => true }

/-- The variant of `oSig` whose blob-existence check always fails. -/
def oSigMissing : SigOracle := { oSig with blob_exists := fun _ => false }

/-- C5 witnessed: the three-token full name makes the run fail with the
parse error and an empty call trace. -/
theorem c5_parse_witness :
    sig_internal_run rbBadName oSig = ([], .error .unpackMismatch) :=
  c5_parse.2 rbBadName oSig (by decide) (by decide)

theorem sig_run_loc_nil (rb : SigRunbook) (o : SigOracle)
    (hloc : rb.gallery_image_location = []) :
    sig_internal_run rb o = ([], .error .indexError) := by
  unfold sig_internal_run
  rw [hloc]

theorem sig_run_parse_err (rb : SigRunbook) (o : SigOracle) (loc : String)
    (rest : List String) (e : Err)
    (hloc : rb.gallery_image_location = loc :: rest)
    (hp : parseFullname rb.gallery_image_fullname = .error e) :
    sig_internal_run rb o = ([], .error e) := by
  unfold sig_internal_run
  rw [hloc, hp]

theorem sig_run_nodes_nil (rb : SigRunbook) (o : SigOracle) (loc : String)
    (rest : List String) (a b c d : String)
    (hvm : rb.vm_resource_group ≠ "") (hn : o.nodes = [])
    (hloc : rb.gallery_image_location = loc :: rest)
    (hp : parseFullname rb.gallery_image_fullname = .ok (a, b, c, d)) :
    sig_internal_run rb o =
      ([SigEvent.loadEnvironment rb.vm_resource_group], .error .indexError) := by
  unfold sig_internal_run
  rw [hloc, hp]
  have hsrc : sig_resolve_source rb o =
      ([SigEvent.loadEnvironment rb.vm_resource_group], .error .indexError) := by
    unfold sig_resolve_source
    rw [if_pos hvm, hn]
  rw [hsrc]

theorem sig_run_vm_eq (rb : SigRunbook) (o : SigOracle) (loc : String)
    (rest : List String) (a b c d : String)
    (hvm : rb.vm_resource_group ≠ "") (hn : o.nodes ≠ [])
    (hloc : rb.gallery_image_location = loc :: rest)
    (hp : parseFullname rb.gallery_image_fullname = .ok (a, b, c, d))
    (hb : o.blob_exists o.vm_disk_id = true) :
    sig_internal_run rb o =
      ([SigEvent.loadEnvironment rb.vm_resource_group, SigEvent.getVM,
        SigEvent.stopVM, SigEvent.generalize rb.vm_resource_group o.vm_name,
        SigEvent.getVhdDetails o.vm_disk_id, SigEvent.checkBlobExist o.vm_disk_id,
        SigEvent.createResourceGroup rb.gallery_resource_group_name
          (if rb.gallery_location = "" then loc else rb.gallery_location),
        SigEvent.createGallery rb.gallery_resource_group_name rb.gallery_name,
        SigEvent.createGalleryImage rb.gallery_image_name "SCSI,NVMe",
        SigEvent.createImageVersion d o.vm_disk_id],
        .ok (rb.gallery_name ++ "/" ++ rb.gallery_image_name ++ "/" ++ d)) := by
  unfold sig_internal_run
  rw [hloc, hp, sig_resolve_source_vm rb o hvm hn]
  simp [hb, hvm]

theorem sig_run_vm_missing (rb : SigRunbook) (o : SigOracle) (loc : String)
    (rest : List String) (a b c d : String)
    (hvm : rb.vm_resource_group ≠ "") (hn : o.nodes ≠ [])
    (hloc : rb.gallery_image_location = loc :: rest)
    (hp : parseFullname rb.gallery_image_fullname = .ok (a, b, c, d))
    (hb : o.blob_exists o.vm_disk_id = false) :
    sig_internal_run rb o =
      ([SigEvent.loadEnvironment rb.vm_resource_group, SigEvent.getVM,
        SigEvent.stopVM, SigEvent.generalize rb.vm_resource_group o.vm_name,
        SigEvent.getVhdDetails o.vm_disk_id, SigEvent.checkBlobExist o.vm_disk_id],
        .error (.blobMissing o.vm_disk_id)) := by
  unfold sig_internal_run
  rw [hloc, hp, sig_resolve_source_vm rb o hvm hn]
  simp [hb]

theorem sig_run_blob_eq (rb : SigRunbook) (o : SigOracle) (loc : String)
    (rest : List String) (a b c d : String)
    (hvm : rb.vm_resource_group = "")
    (hloc : rb.gallery_image_location = loc :: rest)
    (hp : parseFullname rb.gallery_image_fullname = .ok (a, b, c, d))
    (hb : o.blob_exists o.deployable_vhd_path = true) :
    sig_internal_run rb o =
      ([SigEvent.getDeployableVhdPath rb.vhd,
        SigEvent.getVhdDetails o.deployable_vhd_path,
        SigEvent.checkBlobExist o.deployable_vhd_path,
        SigEvent.createResourceGroup rb.gallery_resource_group_name
          (if rb.gallery_location = "" then loc else rb.gallery_location),
        SigEvent.createGallery rb.gallery_resource_group_name rb.gallery_name,
        SigEvent.createGalleryImage rb.gallery_image_name "SCSI",
        SigEvent.createImageVersion d o.deployable_vhd_path],
        .ok (rb.gallery_name ++ "/" ++ rb.gallery_image_name ++ "/" ++ d)) := by
  unfold sig_internal_run
  rw [hloc, hp, sig_resolve_source_blob rb o hvm]
  simp [hb, hvm]

theorem sig_run_blob_missing (rb : SigRunbook) (o : SigOracle) (loc : String)
    (rest : List String) (a b c d : String)
    (hvm : rb.vm_resource_group = "")
    (hloc : rb.gallery_image_location = loc :: rest)
    (hp : parseFullname rb.gallery_image_fullname = .ok (a, b, c, d))
    (hb : o.blob_exists o.deployable_vhd_path = false) :
    sig_internal_run rb o =
      ([SigEvent.getDeployableVhdPath rb.vhd,
        SigEvent.getVhdDetails o.deployable_vhd_path,
        SigEvent.checkBlobExist o.deployable_vhd_path],
        .error (.blobMissing o.deployable_vhd_path)) := by
  unfold sig_internal_run
  rw [hloc, hp, sig_resolve_source_blob rb o hvm]
  simp [hb]

/-- C6: in any publication run that returns a reference, a VM-sourced run
(`vm_resource_group` truthy) has generalized the VM, created the gallery
image with disk controller type `SCSI,NVMe`, and created the image version
from the managed-disk id; a blob-sourced run created the gallery image with
disk controller type `SCSI` only, the version coming from the resolved blob
path. -/
theorem c6_disk_controller (rb : SigRunbook) (o : SigOracle) (url : String)
    (h : (sig_internal_run rb o).2 = .ok url) :
    (rb.vm_resource_group ≠ "" →
      SigEvent.generalize rb.vm_resource_group o.vm_name ∈ (sig_internal_run rb o).1 ∧
      SigEvent.createGalleryImage rb.gallery_image_name "SCSI,NVMe" ∈
        (sig_internal_run rb o).1 ∧
      ∃ version, SigEvent.createImageVersion version o.vm_disk_id ∈
        (sig_internal_run rb o).1) ∧
    (rb.vm_resource_group = "" →
      SigEvent.createGalleryImage rb.gallery_image_name "SCSI" ∈
        (sig_internal_run rb o).1 ∧
      ∃ version, SigEvent.createImageVersion version o.deployable_vhd_path ∈
        (sig_internal_run rb o).1) := by
  cases hloc : rb.gallery_image_location with
  | nil => rw [sig_run_loc_nil rb o hloc] at h; simp at h
  | cons loc rest =>
    cases hp : parseFullname rb.gallery_image_fullname with
    | error e => rw [sig_run_parse_err rb o loc rest e hloc hp] at h; simp at h
    | ok q =>
      obtain ⟨a, b, c, d⟩ := q
      constructor
      · intro hvm
        cases hn : o.nodes with
        | nil =>
          rw [sig_run_nodes_nil rb o loc rest a b c d hvm hn hloc hp] at h
          simp at h
        | cons m ms =>
          have hn2 : o.nodes ≠ [] := by rw [hn]; simp
          cases hb : o.blob_exists o.vm_disk_id with
          | false =>
            rw [sig_run_vm_missing rb o loc rest a b c d hvm hn2 hloc hp hb] at h
            simp at h
          | true =>
            rw [sig_run_vm_eq rb o loc rest a b c d hvm hn2 hloc hp hb]
            refine ⟨by simp, by simp, d, by simp⟩
      · intro hvm
        cases hb : o.blob_exists o.deployable_vhd_path with
        | false =>
          rw [sig_run_blob_missing rb o loc rest a b c d hvm hloc hp hb] at h
          simp at h
        | true =>
          rw [sig_run_blob_eq rb o loc rest a b c d hvm hloc hp hb]
          refine ⟨by simp, d, by simp⟩

/-- C6 witnessed: the VM-sourced run generalizes and uses `SCSI,NVMe` with
the managed-disk id as source; the blob-sourced run uses `SCSI` with the
resolved blob path. -/
theorem c6_disk_controller_witness :
    (SigEvent.generalize "rg-vm" "vm1" ∈ (sig_internal_run rbSigVm oSig).1 ∧
      SigEvent.createGalleryImage "img" "SCSI,NVMe" ∈ (sig_internal_run rbSigVm oSig).1 ∧
      ∃ version, SigEvent.createImageVersion version "/subscriptions/s/disks/d1" ∈
        (sig_internal_run rbSigVm oSig).1) ∧
    (SigEvent.createGalleryImage "img" "SCSI" ∈ (sig_internal_run rbSigBlob oSig).1 ∧
      ∃ version, SigEvent.createImageVersion version "https://sa1.blob/c/b.vhd" ∈
        (sig_internal_run rbSigBlob oSig).1) :=
  ⟨(c6_disk_controller rbSigVm oSig "gal/img/0.0.1" (by rfl)).1 (by decide),
   (c6_disk_controller rbSigBlob oSig "gal/img/0.0.1" (by rfl)).2 (by rfl)⟩

/-- C10: the blob-existence validation runs on both source kinds.  In a
VM-sourced run (well-formed name, non-empty environment), the managed-disk
id itself is passed through `get_vhd_details` and `check_blob_exist`, and a
negative check fails the run with the does-not-exist error naming that
disk id. -/
theorem c10_blob_check (rb : SigRunbook) (o : SigOracle)
    (hvm : rb.vm_resource_group ≠ "")
    (hloc : rb.gallery_image_location ≠ [])
    (hparse : (pySplit rb.gallery_image_fullname).length = 4)
    (hnodes : o.nodes ≠ []) :
    SigEvent.getVhdDetails o.vm_disk_id ∈ (sig_internal_run rb o).1 ∧
    SigEvent.checkBlobExist o.vm_disk_id ∈ (sig_internal_run rb o).1 ∧
    (o.blob_exists o.vm_disk_id = false →
      (sig_internal_run rb o).2 = .error (.blobMissing o.vm_disk_id)) := by
  obtain ⟨a, b, c, d, -, hp⟩ := parseFullname_ok_len _ hparse
  cases hgl : rb.gallery_image_location with
  | nil => exact absurd hgl hloc
  | cons loc rest =>
    cases hb : o.blob_exists o.vm_disk_id with
    | false =>
      rw [sig_run_vm_missing rb o loc rest a b c d hvm hnodes hgl hp hb]
      refine ⟨by simp, by simp, by intro _; rfl⟩
    | true =>
      rw [sig_run_vm_eq rb o loc rest a b c d hvm hnodes hgl hp hb]
      refine ⟨by simp, by simp, by intro hfalse; simp [hb] at hfalse⟩

/-- C10 witnessed: with the blob check failing, the VM-sourced run reports
that the managed-disk id does not exist after having run the check on it. -/
theorem c10_blob_check_witness :
    SigEvent.getVhdDetails "/subscriptions/s/disks/d1" ∈
      (sig_internal_run rbSigVm oSigMissing).1 ∧
    SigEvent.checkBlobExist "/subscriptions/s/disks/d1" ∈
      (sig_internal_run rbSigVm oSigMissing).1 ∧
    (sig_internal_run rbSigVm oSigMissing).2 =
      .error (.blobMissing "/subscriptions/s/disks/d1") :=
  ⟨(c10_blob_check rbSigVm oSigMissing (by decide) (by decide) (by decide)
      (by decide)).1,
   (c10_blob_check rbSigVm oSigMissing (by decide) (by decide) (by decide)
      (by decide)).2.1,
   (c10_blob_check rbSigVm oSigMissing (by decide) (by decide) (by decide)
      (by decide)).2.2 rfl⟩

/-- C2: the code contradicts the claimed (and spec-intended) contract of
`_should_install`.  With the package installed at 21.11.0 and required
version 22.11.0 — newer than installed — the source returns `False` (the
conjunction `required_version is None and ...` short-circuits), where the
contract requires `True`; and with the package installed and no required
version, the source evaluates `None > VersionInfo` and raises `TypeError`,
where the contract requires returning `False` without raising.  The only
agreeing case is an uninstalled package. -/
theorem c2_code_divergence :
    should_install ⟨true, ⟨21, 11, 0⟩⟩ (some ⟨22, 11, 0⟩) = .ok false ∧
    should_install_intended ⟨true, ⟨21, 11, 0⟩⟩ (some ⟨22, 11, 0⟩) = true ∧
    should_install ⟨true, ⟨21, 11, 0⟩⟩ none = .error .typeError ∧
    should_install_intended ⟨true, ⟨21, 11, 0⟩⟩ none = false ∧
    should_install ⟨false, ⟨21, 11, 0⟩⟩ none = .ok true ∧
    should_install_intended ⟨false, ⟨21, 11, 0⟩⟩ none = true := by
  refine ⟨rfl, by decide, rfl, by decide, rfl, by decide⟩

/-- C9: `do_installation` ignores its `required_version` argument — the
source calls `self._should_install()` with no argument, so the version
always defaults to `None`: the run is identical for every argument value,
`_should_install` is invoked with `None`, and never with any concrete
version. -/
theorem c9_dead_parameter (st : InstallerState) (rv : Option VersionInfo) :
    do_installation st rv = do_installation st none ∧
    InstEvent.shouldInstallCall none ∈ (do_installation st rv).1 ∧
    ∀ v, InstEvent.shouldInstallCall (some v) ∉ (do_installation st rv).1 := by
  refine ⟨rfl, ?_, ?_⟩
  · unfold do_installation
    repeat' split
    all_goals simp
  · intro v
    unfold do_installation
    repeat' split
    all_goals simp

/-- C9 witnessed at a concrete uninstalled state with a concrete requested
version. -/
theorem c9_dead_parameter_witness :
    do_installation ⟨false, ⟨1, 0, 0⟩⟩ (some ⟨2, 0, 0⟩) =
      do_installation ⟨false, ⟨1, 0, 0⟩⟩ none ∧
    InstEvent.shouldInstallCall none ∈
      (do_installation ⟨false, ⟨1, 0, 0⟩⟩ (some ⟨2, 0, 0⟩)).1 ∧
    InstEvent.shouldInstallCall (some ⟨2, 0, 0⟩) ∉
      (do_installation ⟨false, ⟨1, 0, 0⟩⟩ (some ⟨2, 0, 0⟩)).1 :=
  ⟨(c9_dead_parameter ⟨false, ⟨1, 0, 0⟩⟩ (some ⟨2, 0, 0⟩)).1,
   (c9_dead_parameter ⟨false, ⟨1, 0, 0⟩⟩ (some ⟨2, 0, 0⟩)).2.1,
   (c9_dead_parameter ⟨false, ⟨1, 0, 0⟩⟩ (some ⟨2, 0, 0⟩)).2.2 ⟨2, 0, 0⟩⟩

/-- C3: `ensure(storageAccount)` is idempotent — two calls with identical
parameters observe the same resource, issue at most one create to the
backing service between them, and when the account is already present the
first call returns it unchanged with the service state untouched. -/
theorem c3_ensure_idempotent (st : StorageState) (account : StorageAccount) :
    (ensure_storage_account st account).2.1 =
      (ensure_storage_account (ensure_storage_account st account).1 account).2.1 ∧
    (ensure_storage_account st account).2.2 +
      (ensure_storage_account (ensure_storage_account st account).1 account).2.2 ≤ 1 ∧
    (∀ a, st.accounts.lookup account.name = some a →
      (ensure_storage_account st account).2.1 = a ∧
      (ensure_storage_account st account).1 = st) := by
  cases hl : st.accounts.lookup account.name with
  | some a0 =>
    refine ⟨?_, ?_, ?_⟩ <;>
      simp_all [ensure_storage_account]
  | none =>
    have h2 : ((⟨(account.name, account) :: st.accounts⟩ : StorageState).accounts).lookup
        account.name = some account := by
      simp [List.lookup]
    refine ⟨?_, ?_, ?_⟩
    · simp [ensure_storage_account, hl, h2]
    · simp [ensure_storage_account, hl, h2]
    · intro a ha
      cases ha

/-- The state of a backing service that already holds the account. -/
def acct0 : StorageAccount := { name := "sa1", resource_group := "rg1", location := "westus2" }

def stHas : StorageState := ⟨[("sa1", acct0)]⟩

/-- C3 witnessed on a service state already holding the account: same
resource both times, zero creates, returned unchanged. -/
theorem c3_ensure_idempotent_witness :
    (ensure_storage_account stHas acct0).2.1 =
      (ensure_storage_account (ensure_storage_account stHas acct0).1 acct0).2.1 ∧
    (ensure_storage_account stHas acct0).2.2 +
      (ensure_storage_account (ensure_storage_account stHas acct0).1 acct0).2.2 ≤ 1 ∧
    ((ensure_storage_account stHas acct0).2.1 = acct0 ∧
      (ensure_storage_account stHas acct0).1 = stHas) :=
  ⟨(c3_ensure_idempotent stHas acct0).1,
   (c3_ensure_idempotent stHas acct0).2.1,
   (c3_ensure_idempotent stHas acct0).2.2 acct0 (by rfl)⟩

end Lisa
